import Mathlib

/-!
Verification development for the BulkyLoad bulk image download service.

The definitions below are a shallow embedding of the batch download engine:

* `src/backend/routes/download.js` — the live `POST /images` route
  (per-tier URL cap, quota check, per-URL fetch/classify loop, post-loop
  quota commit, response summary), plus `GET /remaining` probes.
* `src/backend/models/User.js` — `canDownload` / `updateDailyCount`.
* `src/backend/models/AnonymousSession.js` — session quota records.
* `src/unnamed/part_007` (legacy `/images` route) — the CORS-proxy relay
  chain for per-URL fetches.
* `src/unnamed/part_000` — `convertSvgToPng` / `processImageDownloads`
  (SVG rasterization with degraded-success fallback).

Dates are modelled as calendar-day numbers: every comparison in the source
first truncates both dates with `setHours(0,0,0,0)` and then compares
`getTime()`, which is exactly equality of the calendar day.  Bytes are
`List Nat`; network I/O is an oracle argument giving each attempt's result.
-/

namespace BulkyLoad

/-- `listStartsWith xs ys` is true when `ys` is an initial run of `xs`
(JavaScript `String.prototype.startsWith` on the char lists). -/
def listStartsWith : List Char → List Char → Bool
  | _, [] => true
  | [], _ :: _ => false
  | a :: as, b :: bs => a == b && listStartsWith as bs

/-- JS `s.startsWith(pre)`. -/
def strStarts (s pre : String) : Bool :=
  listStartsWith s.data pre.data

/-- JS `s.endsWith(suf)`. -/
def strEnds (s suf : String) : Bool :=
  listStartsWith s.data.reverse suf.data.reverse

/-- Occurrence of `pat` anywhere in the char list (JS `s.includes(pat)`). -/
def listHasSub (pat : List Char) : List Char → Bool
  | [] => listStartsWith [] pat
  | a :: as => listStartsWith (a :: as) pat || listHasSub pat as

/-- JS `s.includes(pat)`. -/
def strHas (s pat : String) : Bool :=
  listHasSub pat.data s.data

/-- JS `s.toLowerCase()` (ASCII case folding suffices for the suffix probes
the source performs). -/
def lowerStr (s : String) : String :=
  String.mk (s.data.map Char.toLower)

/-- JS `s.split(c)` for a one-character separator: always returns at least
one (possibly empty) piece. -/
def splitChar (c : Char) : List Char → List (List Char)
  | [] => [[]]
  | a :: rest =>
    let r := splitChar c rest
    if a == c then [] :: r
    else
      match r with
      | h :: t => (a :: h) :: t
      | [] => [[a]]

/-- Last element of a split (JS `array.pop()` on a `split` result, which is
never empty). -/
def lastPiece (xs : List (List Char)) : List Char :=
  xs.getLastD []

/-- First element of a split (JS `split(...)[0]`). -/
def headPiece (xs : List (List Char)) : List Char :=
  xs.headD []

/-! ## Quota data model

`User.dailyDownloads` and `AnonymousSession.dailyDownloads` store a daily
counter plus the day it applies to.  The `User` methods read the field
through `freshUser.dailyDownloads.resetDate || new Date()`, so a missing
value behaves as "today"; we keep the field as an `Option`. -/

/-- Subscription status enum of `User.subscription.status`. -/
inductive SubStatus
  | free
  | pro
deriving DecidableEq, Repr

/-- `User.subscription`. -/
structure Subscription where
  status : SubStatus
  expiresAt : Option Nat
deriving DecidableEq, Repr

/-- The slice of a `User` document the download engine touches. -/
structure UserRec where
  dailyCount : Nat
  resetDate : Option Nat
  subscription : Subscription
deriving DecidableEq, Repr

/-- An `AnonymousSession` document's quota slice (`resetDate` has a schema
default, so it is always present). -/
structure SessionRec where
  count : Nat
  resetDate : Nat
deriving DecidableEq, Repr

/-- A tier limit: `Infinity` for an active pro subscription, a finite daily
cap otherwise. -/
inductive Limit
  | finite (n : Nat)
  | unlimited
deriving DecidableEq, Repr

/-- JS `count <= limit` where `limit` may be `Infinity`. -/
def Limit.allows : Limit → Nat → Bool
  | .finite l, c => c ≤ l
  | .unlimited, _ => true

/-- JS `Math.max(0, limit - current)` where `limit` may be `Infinity`. -/
def Limit.minus : Limit → Nat → Limit
  | .finite l, c => .finite (l - c)
  | .unlimited, _ => .unlimited

/-- `User.js` `canDownload`'s subscription probe: status is `'pro'`,
`expiresAt` is set, and `now` is before it. -/
def isProActive (now : Nat) (u : UserRec) : Bool :=
  u.subscription.status == .pro &&
    match u.subscription.expiresAt with
    | some e => now < e
    | none => false

/-- The day `canDownload` compares against `today`:
`new Date(freshUser.dailyDownloads.resetDate || new Date())` truncated to
midnight, i.e. the stored day, defaulting to today when absent. -/
def effectiveResetDay (today : Nat) (u : UserRec) : Nat :=
  u.resetDate.getD today

/-- The lazy day rollover both `canDownload` and `updateDailyCount`
perform before anything else: on a day mismatch the count is zeroed and the
window moved to today. -/
def userRollover (today : Nat) (u : UserRec) : UserRec :=
  if effectiveResetDay today u ≠ today then
    { u with dailyCount := 0, resetDate := some today }
  else u

/-- Tier limit chosen in `canDownload`: unlimited for an active pro
subscription, 10/day otherwise. -/
def userLimit (now : Nat) (u : UserRec) : Limit :=
  if isProActive now u then .unlimited else .finite 10

/-- The record `canDownload` returns. -/
structure LimitCheck where
  canDownload : Bool
  remaining : Limit
  current : Nat
  limit : Limit
  userType : String
deriving DecidableEq, Repr

/-- `User.js` `userSchema.methods.canDownload` (lines 166–232): lazy
rollover (persisted), then `currentCount + urlCount <= limit` against the
tier limit.  Returns the check record and the persisted user state. -/
def canDownload (today now : Nat) (u : UserRec) (urlCount : Nat) :
    LimitCheck × UserRec :=
  let u1 := userRollover today u
  let current := u1.dailyCount
  let limit := userLimit now u
  let userType := if isProActive now u then "subscribed" else "registered"
  ({ canDownload := limit.allows (current + urlCount)
     remaining := limit.minus current
     current := current
     limit := limit
     userType := userType }, u1)

/-- `User.js` `userSchema.methods.updateDailyCount`: lazy rollover, then
add `urlCount` and save. -/
def updateDailyCount (today : Nat) (u : UserRec) (urlCount : Nat) : UserRec :=
  let u1 := userRollover today u
  { u1 with dailyCount := u1.dailyCount + urlCount }

/-- Day rollover for an anonymous session record (`download.js` lines
85–94 and the same pattern in `/remaining`). -/
def anonRollover (today : Nat) (s : SessionRec) : SessionRec :=
  if s.resetDate ≠ today then { count := 0, resetDate := today } else s

/-- The anonymous quota gate of `POST /images` (`download.js` lines
85–109): in-memory rollover, then reject when
`currentCount + urls.length > 5`.  Returns
`(allowed, current, remaining, rolled-over session)`; nothing is saved by
this check. -/
def anonQuotaCheck (today : Nat) (s : SessionRec) (n : Nat) :
    Bool × Nat × Nat × SessionRec :=
  let s1 := anonRollover today s
  (decide (s1.count + n ≤ 5), s1.count, 5 - s1.count, s1)

/-! ## Content classification

`download.js` lines 208–298: the declared `Content-Type` header is
consulted first; only when it neither starts with `image/` nor mentions
`octet-stream` are the magic-byte signatures probed, in the source's order
BMP, JPEG, PNG, GIF, WebP, TIFF.  `response.data.slice(0, 8)` followed by
indexing reads `undefined` past the end, which compares unequal to every
byte; `byteAt` models that with the out-of-range value 256. -/

/-- Byte `i` of the payload, `256` (≠ every byte) when past the end. -/
def byteAt (b : List Nat) (i : Nat) : Nat :=
  b.getD i 256

/-- BMP signature `BM` (`42 4D`). -/
def sigBMP (b : List Nat) : Bool :=
  byteAt b 0 == 0x42 && byteAt b 1 == 0x4d

/-- JPEG signature `FF D8 FF`. -/
def sigJPEG (b : List Nat) : Bool :=
  byteAt b 0 == 0xff && byteAt b 1 == 0xd8 && byteAt b 2 == 0xff

/-- PNG 8-byte signature `89 50 4E 47 0D 0A 1A 0A`. -/
def sigPNG (b : List Nat) : Bool :=
  byteAt b 0 == 0x89 && byteAt b 1 == 0x50 && byteAt b 2 == 0x4e &&
  byteAt b 3 == 0x47 && byteAt b 4 == 0x0d && byteAt b 5 == 0x0a &&
  byteAt b 6 == 0x1a && byteAt b 7 == 0x0a

/-- GIF signature `GIF87a` or `GIF89a`. -/
def sigGIF (b : List Nat) : Bool :=
  byteAt b 0 == 0x47 && byteAt b 1 == 0x49 && byteAt b 2 == 0x46 &&
  byteAt b 3 == 0x38 && (byteAt b 4 == 0x37 || byteAt b 4 == 0x39) &&
  byteAt b 5 == 0x61

/-- The WebP check the source actually performs: bytes `R I F W E B P` at
offsets 0–6 (the code's comment says `RIFF....WEBP`, but the check reads
`firstBytes[3] === 0x57`, i.e. `W` at offset 3). -/
def sigWEBP (b : List Nat) : Bool :=
  byteAt b 0 == 0x52 && byteAt b 1 == 0x49 && byteAt b 2 == 0x46 &&
  byteAt b 3 == 0x57 && byteAt b 4 == 0x45 && byteAt b 5 == 0x42 &&
  byteAt b 6 == 0x50

/-- TIFF markers `II` or `MM`. -/
def sigTIFF (b : List Nat) : Bool :=
  (byteAt b 0 == 0x49 && byteAt b 1 == 0x49) ||
  (byteAt b 0 == 0x4d && byteAt b 1 == 0x4d)

/-- Content classification of the live route (`download.js` lines
208–298): `some detectedType` when the payload is accepted as an image,
`none` for the "Not an image file" rejection.  The declared type wins
whenever it starts with `image/`; a declared type mentioning
`octet-stream` is rejected without a signature probe; otherwise the
signatures decide in source order. -/
def classifyNonSvg (ct : String) (b : List Nat) : Option String :=
  if strStarts ct "image/" then some ct
  else if strHas ct "octet-stream" then none
  else if sigBMP b then some "image/bmp"
  else if sigJPEG b then some "image/jpeg"
  else if sigPNG b then some "image/png"
  else if sigGIF b then some "image/gif"
  else if sigWEBP b then some "image/webp"
  else if sigTIFF b then some "image/tiff"
  else none

/-! ## Per-URL processing -/

/-- The body axios hands back: a string for `responseType: "text"` (SVG
URLs), raw bytes for `responseType: "arraybuffer"`. -/
inductive RespData
  | text (s : String)
  | bytes (b : List Nat)
deriving DecidableEq, Repr

/-- `Buffer.from(response.data).byteLength` — byte size of the payload
(character count for the ASCII text bodies the claims exercise). -/
def RespData.byteLen : RespData → Nat
  | .text s => s.data.length
  | .bytes b => b.length

/-- The bytes the magic probe sees.  When the body is a string (only
possible for SVG-typed requests), JS would compare one-character strings
against numbers — always false — so the probe sees no matching bytes. -/
def RespData.magic : RespData → List Nat
  | .text _ => []
  | .bytes b => b

/-- Result of one axios attempt in the live route: either the promise
rejected (network failure, timeout, size cap, or a terminal status outside
200–399 rejected by `validateStatus`), or it resolved with a status in
200–399, the `content-type` header, and the body. -/
inductive NetOutcome
  | failed
  | ok (status : Nat) (contentType : String) (data : RespData)
deriving DecidableEq, Repr

/-- `base64.length` for an `n`-byte buffer: `4 * ceil(n / 3)`. -/
def base64Len (n : Nat) : Nat :=
  4 * ((n + 2) / 3)

/-- `detectedType.split("/")[1] || "jpg"`. -/
def extFromMime (mime : String) : String :=
  match splitChar '/' mime.data with
  | _ :: e :: _ => if e.isEmpty then "jpg" else String.mk e
  | _ => "jpg"

/-- Filename derivation of the non-SVG success path (`download.js` lines
300–314): strip the query string, take the last path segment; keep it if
it contains a dot, else append the MIME-derived extension, else fall back
to `image-{i+1}.{ext}`. -/
def genFilename (i : Nat) (url detected : String) : String :=
  let urlPath := headPiece (splitChar '?' url.data)
  let lastPart := lastPiece (splitChar '/' urlPath)
  let ext := extFromMime detected
  if !lastPart.isEmpty && lastPart.contains '.' then String.mk lastPart
  else if !lastPart.isEmpty then String.mk lastPart ++ "." ++ ext
  else "image-" ++ toString (i + 1) ++ "." ++ ext

/-- What one loop iteration concluded about its URL. -/
inductive UrlOutcome
  | ok (filename : String) (size : Nat) (contentType : String)
  | err (msg : String)
deriving DecidableEq, Repr

/-- One iteration of the per-URL loop of the live route (`download.js`
lines 118–375), given the axios outcome for that URL.

Faithfully modelled quirks:
* an SVG-suffixed URL whose last path segment does not itself end in
  `.svg` hits `filename = filename + ".svg"` on a `const` binding — a
  `TypeError` caught by the per-URL `catch`, yielding the generic
  "Failed to download image" failure;
* an empty payload that passes classification fails the
  `base64.length === 0` guard ("Failed to encode image data");
* a data URL shorter than 100 characters is rejected
  ("Failed to create valid data URL"). -/
def processCore (i : Nat) (url : String) (net : NetOutcome) : UrlOutcome :=
  let isSvg := strEnds (lowerStr url) ".svg"
  match net with
  | .failed => .err "Failed to download image"
  | .ok status ct data =>
    if status == 200 then
      if isSvg then
        match data with
        | .text s =>
          if strHas s "<svg" then
            let raw := headPiece (splitChar '?' (lastPiece (splitChar '/' url.data)))
            let filename := if raw.isEmpty then "image.svg" else String.mk raw
            if strEnds filename ".svg" then
              .ok filename s.data.length "image/svg+xml"
            else .err "Failed to download image"
          else .err "Invalid SVG content"
        | .bytes _ => .err "Invalid SVG content"
      else
        match classifyNonSvg ct data.magic with
        | none => .err "Not an image file"
        | some detected =>
          let n := data.byteLen
          if n == 0 then .err "Failed to encode image data"
          else if ("data:" ++ detected ++ ";base64,").data.length + base64Len n < 100 then
            .err "Failed to create valid data URL"
          else .ok (genFilename i url detected) n detected
    else .err ("HTTP " ++ toString status)

/-- One entry of the route's `results` array. -/
structure UrlResult where
  url : String
  success : Bool
  filename : String
  size : Nat
  contentType : String
  error : String
deriving DecidableEq, Repr

/-- Wrap a loop iteration's conclusion as the pushed `results` entry. -/
def processUrl (i : Nat) (url : String) (net : NetOutcome) : UrlResult :=
  match processCore i url net with
  | .ok fn sz ct => ⟨url, true, fn, sz, ct, ""⟩
  | .err m => ⟨url, false, "", 0, "", m⟩

/-- The whole loop: one pushed result per input URL, in input order. -/
def processAll (urls : List String) (net : Nat → NetOutcome) : List UrlResult :=
  (List.range urls.length).map (fun i => processUrl i (urls.getD i "") (net i))

/-- `results.filter(r => r.success).length`. -/
def countSucc (rs : List UrlResult) : Nat :=
  (rs.filter (fun r => r.success)).length

/-- `results.filter(r => !r.success).length`. -/
def countFail (rs : List UrlResult) : Nat :=
  (rs.filter (fun r => !r.success)).length

/-- The `summary` object of the response. -/
structure Summary where
  total : Nat
  successful : Nat
  failed : Nat
deriving DecidableEq, Repr

/-- `summary` as the route builds it (lines 450–454). -/
def mkSummary (urls : List String) (rs : List UrlResult) : Summary :=
  ⟨urls.length, countSucc rs, countFail rs⟩

/-! ## The `POST /images` handler -/

/-- Clock inputs: `today` is the midnight-truncated day every date
comparison uses, `now` the instant compared against subscription expiry. -/
structure Env where
  today : Nat
  now : Nat
deriving DecidableEq, Repr

/-- The request body plus the result of `optionalAuth`: `auth` is whether
`req.user` was set, `sessionId` the anonymous session key, if any. -/
structure BatchInput where
  urls : List String
  auth : Bool
  sessionId : Option String
deriving DecidableEq, Repr

/-- The stored records behind this request's identity: the `User` document
for `req.user.userId` (when authenticated) and the `AnonymousSession`
document for the supplied `sessionId` — `none` when the store has no such
record. -/
structure Db where
  user : Option UserRec
  session : Option SessionRec
deriving DecidableEq, Repr

/-- The response the handler sends. -/
inductive HandlerResult
  | badRequest (msg : String)
  | capExceeded (maxAllowed requested : Nat) (userType : String)
  | sessionRequired
  | quotaExceeded (current : Nat) (remaining : Limit) (limit : Limit)
      (requested : Nat) (userType : String)
  | completed (results : List UrlResult) (summary : Summary)
deriving DecidableEq, Repr

/-- Response plus the stored records after the request and the number of
URLs the fetch loop attempted. -/
structure HandlerOutput where
  response : HandlerResult
  userAfter : Option UserRec
  sessionAfter : Option SessionRec
  fetchAttempts : Nat
deriving DecidableEq, Repr

/-- The anonymous commit block (`download.js` lines 377–399): re-query the
session by `sessionId`; if — and only if — a stored record exists and at
least one download succeeded, add the successful count to it and save.  A
session that was only created in memory during admission was never saved,
so the re-query finds nothing and the count is lost. -/
def commitAnon (dbSession : Option SessionRec) (succ : Nat) :
    Option SessionRec :=
  match dbSession with
  | none => none
  | some s => some (if 0 < succ then { s with count := s.count + succ } else s)

/-- The authenticated commit block (`download.js` lines 402–433): when the
user record exists and at least one download succeeded, run
`updateDailyCount` with the successful count. -/
def commitUser (today : Nat) (dbUser : Option UserRec) (succ : Nat) :
    Option UserRec :=
  match dbUser with
  | none => none
  | some u => some (if 0 < succ then updateDailyCount today u succ else u)

/-- The live `POST /images` handler (`download.js` lines 10–461),
end to end:

1. reject an empty URL list;
2. per-tier cap — 5 anonymous, 10 authenticated — checked before any
   quota logic, naming the cap and the received count;
3. authenticated: `canDownload(urls.length)` (its lazy rollover is saved),
   403 on failure; anonymous: require a `sessionId`, load or lazily create
   the session (not saved), in-memory rollover, 403 when
   `current + urls.length > 5`;
4. the per-URL loop;
5. commit the count of successful results (anonymous commits re-query the
   store; authenticated commits go through `updateDailyCount`);
6. respond with `results` and the summary. -/
def postImages (env : Env) (inp : BatchInput) (db : Db)
    (net : Nat → NetOutcome) : HandlerOutput :=
  if inp.urls.isEmpty then
    ⟨.badRequest "Please provide an array of image URLs", db.user, db.session, 0⟩
  else
    let cap := if inp.auth then 10 else 5
    if cap < inp.urls.length then
      ⟨.capExceeded cap inp.urls.length
        (if inp.auth then "registered" else "anonymous"),
       db.user, db.session, 0⟩
    else if inp.auth then
      match db.user with
      | none =>
        -- `User.findById` found nothing: no check and no commit.
        let results := processAll inp.urls net
        ⟨.completed results (mkSummary inp.urls results), none, db.session,
         inp.urls.length⟩
      | some u =>
        let chk := (canDownload env.today env.now u inp.urls.length).1
        let u1 := (canDownload env.today env.now u inp.urls.length).2
        if !chk.canDownload then
          ⟨.quotaExceeded chk.current chk.remaining chk.limit
            inp.urls.length chk.userType, some u1, db.session, 0⟩
        else
          let results := processAll inp.urls net
          ⟨.completed results (mkSummary inp.urls results),
           commitUser env.today (some u1) (countSucc results), db.session,
           inp.urls.length⟩
    else
      match inp.sessionId with
      | none => ⟨.sessionRequired, db.user, db.session, 0⟩
      | some _ =>
        let s0 := db.session.getD ⟨0, env.today⟩
        let q := anonQuotaCheck env.today s0 inp.urls.length
        if !q.1 then
          ⟨.quotaExceeded q.2.1 (.finite q.2.2.1) (.finite 5)
            inp.urls.length "anonymous", db.user, db.session, 0⟩
        else
          let results := processAll inp.urls net
          ⟨.completed results (mkSummary inp.urls results), db.user,
           commitAnon db.session (countSucc results), inp.urls.length⟩

/-- The anonymous `POST /remaining` probe (`download.js` lines 553–607):
find or create (and save) the session, persist the rollover, report
`(current, remaining, limit)` plus the stored record. -/
def anonRemaining (today : Nat) (dbSession : Option SessionRec) :
    (Nat × Nat × Nat) × SessionRec :=
  let s0 := dbSession.getD ⟨0, today⟩
  let s1 := anonRollover today s0
  ((s1.count, 5 - s1.count, 5), s1)

/-! ## Legacy `/images` relay chain (`src/unnamed/part_007`, lines 277–347)

The legacy route's per-URL fetch: a direct axios GET, and on *certain*
failures a walk through the hardcoded proxy list
`corsproxy.io`, `api.allorigins.win`, `api.codetabs.com` (in that order),
stopping at the first proxy whose GET resolves; if all proxies fail, the
original error is rethrown. -/

/-- The error axios rejects with: `error.code`, `error.response?.status`,
`error.message`. -/
structure AxiosError where
  code : Option String
  status : Option Nat
  message : String
deriving DecidableEq, Repr

/-- One GET attempt: resolved with a response (identified abstractly), or
rejected with an error. -/
inductive FetchAttempt
  | ok (resp : Nat)
  | err (e : AxiosError)
deriving DecidableEq, Repr

/-- Whether an attempt rejected. -/
def FetchAttempt.isErr : FetchAttempt → Bool
  | .ok _ => false
  | .err _ => true

/-- The guard at part_007 line 295 deciding whether the proxy chain is
tried at all: `error.code === 'ERR_NETWORK' ||
error.response?.status === 403 || error.message.includes('CORS')`. -/
def corsEligible (e : AxiosError) : Bool :=
  e.code == some "ERR_NETWORK" || e.status == some 403 ||
    strHas e.message "CORS"

/-- Whether a failed direct attempt sends the legacy route into the proxy
loop. -/
def relayTriggered : FetchAttempt → Bool
  | .ok _ => false
  | .err e => corsEligible e

/-- Walk the proxy attempts in order: first success wins.  Returns the
response (if any) and how many proxies were attempted. -/
def tryProxies : List FetchAttempt → Option Nat × Nat
  | [] => (none, 0)
  | .ok r :: _ => (some r, 1)
  | .err _ :: rest =>
    let p := tryProxies rest
    (p.1, p.2 + 1)

/-- The legacy per-URL fetch step: direct attempt, then — only when the
direct error is relay-eligible — the proxy chain; any other direct failure
is rethrown at once.  Returns the winning response (or `none` for a
per-URL failure) and the number of relay attempts made. -/
def fetchLegacy (direct : FetchAttempt) (proxies : List FetchAttempt) :
    Option Nat × Nat :=
  match direct with
  | .ok r => (some r, 0)
  | .err e => if corsEligible e then tryProxies proxies else (none, 0)

/-! ## SVG rasterization with fallback (`src/unnamed/part_000`)

`processImageDownloads` walks the successful downloads; for each SVG item
it calls `convertSvgToPng` inside a `try`.  `convertSvgToPng` rejects when
the renderer cannot load the markup (`img.onerror`) or when
`canvas.toBlob` hands back no blob — both rejections are caught and the
item falls back to archiving the original SVG bytes under its original
(sanitized) name. -/

/-- One entry of the `downloads` array the backend returned. -/
structure ZipItem where
  filename : String
  mimeType : String
  isSvg : Bool
  blobBytes : List Nat
deriving DecidableEq, Repr

/-- What `convertSvgToPng` did: resolved with the encoded PNG, or rejected
(malformed markup the renderer cannot parse, or a null blob from the
encoder). -/
inductive RasterResult
  | png (bytes : List Nat)
  | failed
deriving DecidableEq, Repr

/-- What ends up in the archive for one item. -/
inductive ZipContent
  | raster (bytes : List Nat)
  | original (bytes : List Nat)
deriving DecidableEq, Repr

/-- One `zip.file(name, blob)` call. -/
structure ZipEntry where
  name : String
  content : ZipContent
deriving DecidableEq, Repr

/-- `filename.replace(/[?&=]/g, "_")`. -/
def sanitizeName (s : String) : String :=
  String.mk (s.data.map (fun c =>
    if c == '?' || c == '&' || c == '=' then '_' else c))

/-- PNG filename for a converted SVG (part_000 lines 104–110): swap a
`.svg` suffix for `.png`; otherwise, unless already `.png`, fall back to
`image_{index+1}.png`. -/
def pngFilename (idx : Nat) (fn : String) : String :=
  if strEnds (lowerStr fn) ".svg" then
    String.mk (fn.data.take (fn.data.length - 4)) ++ ".png"
  else if !strEnds (lowerStr fn) ".png" then
    "image_" ++ toString (idx + 1) ++ ".png"
  else fn

/-- The SVG branch of `processImageDownloads` (part_000 lines 96–127): a
successful conversion archives the PNG under the transformed name; a
caught conversion failure archives the original bytes under the original
sanitized name. -/
def processSvgEntry (idx : Nat) (item : ZipItem) (r : RasterResult) :
    ZipEntry :=
  match r with
  | .png b => ⟨sanitizeName (pngFilename idx item.filename), .raster b⟩
  | .failed => ⟨sanitizeName item.filename, .original item.blobBytes⟩

/-- One iteration of `processImageDownloads`' loop: SVG items (by flag or
MIME) go through the rasterize-with-fallback branch, other items are
archived as-is. -/
def processZipEntry (idx : Nat) (item : ZipItem) (r : RasterResult) :
    ZipEntry :=
  if item.isSvg || item.mimeType == "image/svg+xml" then
    processSvgEntry idx item r
  else
    ⟨sanitizeName item.filename, .original item.blobBytes⟩

/-- The whole zip-assembly loop: one archive entry per download, where
`raster i` says what `convertSvgToPng` did for item `i`. -/
def processImageDownloads (items : List ZipItem)
    (raster : Nat → RasterResult) : List ZipEntry :=
  (List.range items.length).map (fun i =>
    processZipEntry i (items.getD i ⟨"", "", false, []⟩) (raster i))

/-! ## Concrete payloads used by witnesses and counterexamples -/

/-- A 100-byte payload opening with the PNG signature. -/
def pngPayload : List Nat :=
  [0x89, 0x50, 0x4e, 0x47, 0x0d, 0x0a, 0x1a, 0x0a] ++ List.replicate 92 0

/-- A payload opening with the real WebP layout: `RIFF`, a size field,
then `WEBP` at offset 8. -/
def webpPayload : List Nat :=
  [0x52, 0x49, 0x46, 0x46, 0x10, 0x00, 0x00, 0x00, 0x57, 0x45, 0x42, 0x50]

/-! ## Basic lemmas about the per-URL loop -/

theorem processUrl_url (i : Nat) (url : String) (net : NetOutcome) :
    (processUrl i url net).url = url := by
  unfold processUrl
  cases processCore i url net <;> rfl

theorem processUrl_success (i : Nat) (url : String) (net : NetOutcome) :
    (processUrl i url net).success =
      (match processCore i url net with
       | .ok _ _ _ => true
       | .err _ => false) := by
  unfold processUrl
  cases processCore i url net <;> rfl

theorem processAll_length (urls : List String) (net : Nat → NetOutcome) :
    (processAll urls net).length = urls.length := by
  simp [processAll]

theorem processAll_get (urls : List String) (net : Nat → NetOutcome)
    (i : Nat) (h : i < (processAll urls net).length) :
    (processAll urls net).get ⟨i, h⟩ = processUrl i (urls.getD i "") (net i) := by
  simp [processAll]

theorem countSucc_add_countFail (rs : List UrlResult) :
    countSucc rs + countFail rs = rs.length := by
  induction rs with
  | nil => rfl
  | cons r rs ih =>
    unfold countSucc countFail at *
    cases h : r.success <;> simp [List.filter, h] <;> omega

/-- Inversion: whatever branch the handler took, a `completed` response
carries exactly the loop's results and the summary computed from them. -/
theorem postImages_completed (env : Env) (inp : BatchInput) (db : Db)
    (net : Nat → NetOutcome) (results : List UrlResult) (summary : Summary)
    (h : (postImages env inp db net).response = .completed results summary) :
    results = processAll inp.urls net ∧ summary = mkSummary inp.urls results := by
  by_cases h0 : inp.urls.isEmpty
  · simp [postImages, h0] at h
  · by_cases ha : inp.auth
    · by_cases hcap : 10 < inp.urls.length
      · simp [postImages, h0, ha, hcap] at h
      · rcases hu : db.user with _ | u
        · simp [postImages, h0, ha, hcap, hu] at h
          obtain ⟨h1, h2⟩ := h
          subst h1; subst h2; exact ⟨rfl, rfl⟩
        · by_cases hq : (canDownload env.today env.now u inp.urls.length).1.canDownload
          · simp [postImages, h0, ha, hcap, hu, hq] at h
            obtain ⟨h1, h2⟩ := h
            subst h1; subst h2; exact ⟨rfl, rfl⟩
          · simp [postImages, h0, ha, hcap, hu, hq] at h
    · by_cases hcap : 5 < inp.urls.length
      · simp [postImages, h0, ha, hcap] at h
      · rcases hs : inp.sessionId with _ | sid
        · simp [postImages, h0, ha, hcap, hs] at h
        · by_cases hq : (anonQuotaCheck env.today
              (db.session.getD ⟨0, env.today⟩) inp.urls.length).1
          · simp [postImages, h0, ha, hcap, hs, hq] at h
            obtain ⟨h1, h2⟩ := h
            subst h1; subst h2; exact ⟨rfl, rfl⟩
          · simp [postImages, h0, ha, hcap, hs, hq] at h

/-- C3: for every admitted batch, the summary satisfies
`successful + failed = total = |results| = |input URLs|`, and
`results[i].url` is the `i`-th input URL — the loop pushes exactly one
result per URL, in input order. -/
theorem summary_consistent_and_order_preserved (env : Env) (inp : BatchInput)
    (db : Db) (net : Nat → NetOutcome) (results : List UrlResult)
    (summary : Summary)
    (h : (postImages env inp db net).response = .completed results summary) :
    results.length = inp.urls.length ∧
    summary.total = inp.urls.length ∧
    summary.successful + summary.failed = summary.total ∧
    ∀ i (hi : i < results.length),
      (results.get ⟨i, hi⟩).url = inp.urls.getD i "" := by
  obtain ⟨hr, hs⟩ := postImages_completed env inp db net results summary h
  subst hr; subst hs
  refine ⟨?_, ?_, ?_, ?_⟩
  · exact processAll_length _ _
  · rfl
  · show countSucc _ + countFail _ = _
    rw [countSucc_add_countFail, processAll_length]
    rfl
  · intro i hi
    rw [processAll_get]
    exact processUrl_url _ _ _

/-- Witness for C3: a concrete admitted anonymous batch of two URLs (one
fetch succeeds, one fails) hits the theorem's hypothesis, with the summary
2 = 1 + 1 and both URLs back in order. -/
theorem summary_consistent_witness :
    ([(⟨"http://h/a.png", true, "a.png", 100, "image/png", ""⟩ : UrlResult),
      ⟨"http://h/b", false, "", 0, "", "Failed to download image"⟩].length
        = ["http://h/a.png", "http://h/b"].length) ∧
    (Summary.mk 2 1 1).total = 2 ∧
    (Summary.mk 2 1 1).successful + (Summary.mk 2 1 1).failed
        = (Summary.mk 2 1 1).total := by
  have h := summary_consistent_and_order_preserved ⟨0, 0⟩
    ⟨["http://h/a.png", "http://h/b"], false, some "s"⟩ ⟨none, some ⟨0, 0⟩⟩
    (fun i => if i == 0 then .ok 200 "image/png" (.bytes pngPayload) else .failed)
    [⟨"http://h/a.png", true, "a.png", 100, "image/png", ""⟩,
     ⟨"http://h/b", false, "", 0, "", "Failed to download image"⟩]
    ⟨2, 1, 1⟩ rfl
  exact ⟨h.1, h.2.1, h.2.2.1⟩

/-- C6: a batch whose URL count exceeds the submitting tier's cap
(5 anonymous, 10 authenticated — registered and subscribed alike) is
rejected with a structured error naming the cap and the received count,
before the quota check touches any record and before any fetch: the
output's stored records equal the inputs and zero URLs were attempted. -/
theorem cap_rejection_before_quota_and_fetch (env : Env) (inp : BatchInput)
    (db : Db) (net : Nat → NetOutcome) (hne : inp.urls ≠ [])
    (hcap : (if inp.auth then 10 else 5) < inp.urls.length) :
    postImages env inp db net =
      ⟨.capExceeded (if inp.auth then 10 else 5) inp.urls.length
        (if inp.auth then "registered" else "anonymous"),
       db.user, db.session, 0⟩ := by
  have h0 : inp.urls.isEmpty = false := by simpa using hne
  by_cases ha : inp.auth <;> simp_all [postImages]

/-- Witness for C6: eleven URLs from an authenticated identity are bounced
with cap 10, count 11, and untouched state. -/
theorem cap_rejection_witness :
    postImages ⟨3, 3⟩
      ⟨["1","2","3","4","5","6","7","8","9","10","11"], true, none⟩
      ⟨some ⟨0, some 3, ⟨.free, none⟩⟩, none⟩ (fun _ => .failed) =
      ⟨.capExceeded 10 11 "registered",
       some ⟨0, some 3, ⟨.free, none⟩⟩, none, 0⟩ :=
  cap_rejection_before_quota_and_fetch ⟨3, 3⟩
    ⟨["1","2","3","4","5","6","7","8","9","10","11"], true, none⟩
    ⟨some ⟨0, some 3, ⟨.free, none⟩⟩, none⟩ (fun _ => .failed)
    (by decide) (by decide)

/-- Counterexample to C10 as stated: an anonymous batch of six URLs with
no session key is rejected by the cap check, not with the
session-required error — the session check runs after the URL-cap
check. -/
theorem no_session_cap_takes_precedence :
    (postImages ⟨0, 0⟩ ⟨["a", "b", "c", "d", "e", "f"], false, none⟩
        ⟨none, none⟩ (fun _ => .failed)).response =
      .capExceeded 5 6 "anonymous" ∧
    (postImages ⟨0, 0⟩ ⟨["a", "b", "c", "d", "e", "f"], false, none⟩
        ⟨none, none⟩ (fun _ => .failed)).response ≠
      .sessionRequired := by
  exact ⟨rfl, by decide⟩

/-- C10 (amended): an anonymous batch with a valid, within-cap URL list
and no session key is rejected with the structured session-required error
before any quota record is read or created and before any fetch — the
stored records pass through unchanged and zero URLs are attempted. -/
theorem missing_session_rejected_early (env : Env) (inp : BatchInput)
    (db : Db) (net : Nat → NetOutcome) (hne : inp.urls ≠ [])
    (hcap : inp.urls.length ≤ 5) (hanon : inp.auth = false)
    (hsid : inp.sessionId = none) :
    postImages env inp db net = ⟨.sessionRequired, db.user, db.session, 0⟩ := by
  have h0 : inp.urls.isEmpty = false := by simpa using hne
  simp [postImages, h0, hanon, hsid, Nat.not_lt.mpr hcap]

/-- Witness for C10's amended theorem: three URLs, anonymous, no session
key — session-required rejection with untouched state. -/
theorem missing_session_witness :
    postImages ⟨0, 0⟩ ⟨["a", "b", "c"], false, none⟩ ⟨none, some ⟨2, 0⟩⟩
        (fun _ => .failed) =
      ⟨.sessionRequired, none, some ⟨2, 0⟩, 0⟩ :=
  missing_session_rejected_early ⟨0, 0⟩ ⟨["a", "b", "c"], false, none⟩
    ⟨none, some ⟨2, 0⟩⟩ (fun _ => .failed) (by decide) (by decide) rfl rfl

/-- C1 (code bug): an admitted anonymous batch under a session key with no
stored session record produces one successful outcome, yet the store still
holds no record afterwards — admission built the session only in memory
and never saved it, and the post-loop commit re-queries the store, finds
nothing, and skips the update, so the successful download is never
charged. -/
theorem fresh_anon_session_never_charged :
    (postImages ⟨0, 0⟩ ⟨["http://h/a.png"], false, some "s1"⟩ ⟨none, none⟩
        (fun _ => .ok 200 "image/png" (.bytes pngPayload))).response =
      .completed [⟨"http://h/a.png", true, "a.png", 100, "image/png", ""⟩]
        ⟨1, 1, 0⟩ ∧
    (postImages ⟨0, 0⟩ ⟨["http://h/a.png"], false, some "s1"⟩ ⟨none, none⟩
        (fun _ => .ok 200 "image/png" (.bytes pngPayload))).sessionAfter =
      none := by
  exact ⟨rfl, rfl⟩

/-- C2: a quota check on a calendar day later than the recorded window day
reports `current = 0` and the full tier limit as remaining, whatever the
prior count, and evaluates the limit comparison against the reset count —
for registered/subscribed identities through `User.canDownload` (which
also persists the zeroed count and advanced window), and for anonymous
identities through the inline session check. -/
theorem rollover_resets_before_limit_check (today now d n : Nat)
    (u : UserRec) (s : SessionRec) (hd : u.resetDate = some d)
    (hlt : d < today) (hs : s.resetDate < today) :
    (canDownload today now u n).1.current = 0 ∧
    (canDownload today now u n).1.remaining =
      (canDownload today now u n).1.limit ∧
    (canDownload today now u n).1.canDownload =
      (canDownload today now u n).1.limit.allows n ∧
    (canDownload today now u n).2.dailyCount = 0 ∧
    (canDownload today now u n).2.resetDate = some today ∧
    anonQuotaCheck today s n = (decide (n ≤ 5), 0, 5, ⟨0, today⟩) := by
  have hne : effectiveResetDay today u ≠ today := by
    simp only [effectiveResetDay, hd, Option.getD_some]
    omega
  have hroll : userRollover today u =
      { u with dailyCount := 0, resetDate := some today } := by
    simp [userRollover, hne]
  have hsne : s.resetDate ≠ today := by omega
  refine ⟨?_, ?_, ?_, ?_, ?_, ?_⟩
  · simp [canDownload, hroll]
  · simp only [canDownload]
    cases userLimit now u <;> simp [hroll, Limit.minus]
  · simp only [canDownload]
    cases userLimit now u <;> simp [hroll, Limit.allows]
  · simp [canDownload, hroll]
  · simp [canDownload, hroll]
  · simp [anonQuotaCheck, anonRollover, hsne]

/-- Witness for C2: a registered user at count 7 recorded on day 2 checked
on day 5, and a session at count 4 recorded on day 1, both report a clean
window. -/
theorem rollover_reset_witness :
    (canDownload 5 0 ⟨7, some 2, ⟨.free, none⟩⟩ 3).1.current = 0 ∧
    (canDownload 5 0 ⟨7, some 2, ⟨.free, none⟩⟩ 3).1.remaining =
      (canDownload 5 0 ⟨7, some 2, ⟨.free, none⟩⟩ 3).1.limit ∧
    anonQuotaCheck 5 ⟨4, 1⟩ 3 = (decide ((3 : Nat) ≤ 5), 0, 5, ⟨0, 5⟩) := by
  have h := rollover_resets_before_limit_check 5 0 2 3
    ⟨7, some 2, ⟨.free, none⟩⟩ ⟨4, 1⟩ rfl (by decide) (by decide)
  exact ⟨h.1, h.2.1, h.2.2.2.2.2⟩

/-- Counterexample to C7 as stated: a user whose recorded count already
exceeds the finite tier limit (reachable by committing downloads while a
pro subscription was active and then letting it lapse) gets
`allowed = false` from a `requestedCount = 0` probe — the code computes
`current + 0 <= limit`, not the constant `true`. -/
theorem zero_probe_not_always_allowed :
    (canDownload 0 10 ⟨11, some 0, ⟨.pro, some 5⟩⟩ 0).1.canDownload
      = false := rfl

/-- C7 (amended): a `requestedCount = 0` check is allowed whenever the
post-rollover count is within the tier limit — always, for the subscribed
tier — and its only possible state change is the lazy day rollover: on the
current day the record passes through untouched, and the anonymous check
and `POST /remaining` probe likewise only ever apply the rollover. -/
theorem zero_probe_allowed_within_limit (today now : Nat) (u : UserRec)
    (s : SessionRec) :
    ((canDownload today now u 0).1.limit = .unlimited →
      (canDownload today now u 0).1.canDownload = true) ∧
    (∀ l, (canDownload today now u 0).1.limit = .finite l →
      ((canDownload today now u 0).1.canDownload = true ↔
        (canDownload today now u 0).1.current ≤ l)) ∧
    (canDownload today now u 0).2 = userRollover today u ∧
    (effectiveResetDay today u = today → (canDownload today now u 0).2 = u) ∧
    (anonQuotaCheck today s 0).1 =
      decide ((anonRollover today s).count ≤ 5) ∧
    (anonQuotaCheck today s 0).2.2.2 = anonRollover today s ∧
    (anonRemaining today (some s)).2 = anonRollover today s := by
  refine ⟨?_, ?_, rfl, ?_, ?_, rfl, rfl⟩
  · intro hl
    simp only [canDownload] at hl ⊢
    cases hu : userLimit now u
    · rw [hu] at hl
      exact Limit.noConfusion hl
    · simp [Limit.allows]
  · intro l hl
    simp only [canDownload] at hl ⊢
    cases hu : userLimit now u
    · rw [hu] at hl
      injection hl with hnl
      subst hnl
      simp [Limit.allows]
    · rw [hu] at hl
      exact Limit.noConfusion hl
  · intro he
    simp only [canDownload]
    simp [userRollover, he]
  · simp [anonQuotaCheck]

/-- Witness for C7's amended theorem: a same-day probe at count 3 of the
registered limit 10 is allowed and leaves the record untouched. -/
theorem zero_probe_witness :
    (canDownload 2 0 ⟨3, some 2, ⟨.free, none⟩⟩ 0).1.canDownload = true ∧
    (canDownload 2 0 ⟨3, some 2, ⟨.free, none⟩⟩ 0).2 =
      ⟨3, some 2, ⟨.free, none⟩⟩ := by
  have h := zero_probe_allowed_within_limit 2 0
    ⟨3, some 2, ⟨.free, none⟩⟩ ⟨0, 2⟩
  exact ⟨(h.2.1 10 rfl).mpr (by decide), h.2.2.2.1 (by decide)⟩

/-- Counterexample to C4 as stated: the declared type is consulted first,
so a PNG-signature payload declared as `image/jpeg` classifies as
`image/jpeg`; and a payload carrying the real WebP layout (`RIFF`, size,
`WEBP` at offset 8) is rejected outright, because the code's WebP check
reads `R I F W E B P` at offsets 0–6 (contradicting its own
`RIFF....WEBP` comment). -/
theorem declared_type_overrides_signature :
    classifyNonSvg "image/jpeg" pngPayload = some "image/jpeg" ∧
    sigPNG pngPayload = true ∧
    classifyNonSvg "" webpPayload = none := by
  decide

/-- C4 (amended): when the declared MIME type neither starts with `image/`
nor mentions `octet-stream`, a payload whose leading bytes match one of
the code's signatures — JPEG `FF D8 FF`, 8-byte PNG, `GIF8[7|9]a`, `BM`,
the code's `R I F W E B P` WebP check, TIFF `II`/`MM` — classifies as that
signature's format, whatever the declared value; declared `image/*` types
win instead, and `octet-stream` declarations are rejected without a
signature probe. -/
theorem signature_wins_when_declared_untyped (ct : String) (b : List Nat)
    (h1 : strStarts ct "image/" = false)
    (h2 : strHas ct "octet-stream" = false) :
    (sigBMP b = true → classifyNonSvg ct b = some "image/bmp") ∧
    (sigJPEG b = true → classifyNonSvg ct b = some "image/jpeg") ∧
    (sigPNG b = true → classifyNonSvg ct b = some "image/png") ∧
    (sigGIF b = true → classifyNonSvg ct b = some "image/gif") ∧
    (sigWEBP b = true → classifyNonSvg ct b = some "image/webp") ∧
    (sigTIFF b = true → classifyNonSvg ct b = some "image/tiff") := by
  refine ⟨?_, ?_, ?_, ?_, ?_, ?_⟩ <;> intro h
  · simp [classifyNonSvg, h1, h2, h]
  · have e0 : byteAt b 0 = 0xff := by
      simp [sigJPEG, Bool.and_eq_true, beq_iff_eq] at h
      tauto
    have hb : sigBMP b = false := by simp [sigBMP, e0]
    simp [classifyNonSvg, h1, h2, hb, h]
  · have e0 : byteAt b 0 = 0x89 := by
      simp [sigPNG, Bool.and_eq_true, beq_iff_eq] at h
      tauto
    have hb : sigBMP b = false := by simp [sigBMP, e0]
    have hj : sigJPEG b = false := by simp [sigJPEG, e0]
    simp [classifyNonSvg, h1, h2, hb, hj, h]
  · have e0 : byteAt b 0 = 0x47 := by
      simp [sigGIF, Bool.and_eq_true, beq_iff_eq] at h
      tauto
    have hb : sigBMP b = false := by simp [sigBMP, e0]
    have hj : sigJPEG b = false := by simp [sigJPEG, e0]
    have hp : sigPNG b = false := by simp [sigPNG, e0]
    simp [classifyNonSvg, h1, h2, hb, hj, hp, h]
  · have e0 : byteAt b 0 = 0x52 := by
      simp [sigWEBP, Bool.and_eq_true, beq_iff_eq] at h
      tauto
    have hb : sigBMP b = false := by simp [sigBMP, e0]
    have hj : sigJPEG b = false := by simp [sigJPEG, e0]
    have hp : sigPNG b = false := by simp [sigPNG, e0]
    have hg : sigGIF b = false := by simp [sigGIF, e0]
    simp [classifyNonSvg, h1, h2, hb, hj, hp, hg, h]
  · have e0 : byteAt b 0 = 0x49 ∨ byteAt b 0 = 0x4d := by
      simp [sigTIFF, Bool.or_eq_true, Bool.and_eq_true, beq_iff_eq] at h
      tauto
    have hb : sigBMP b = false := by
      rcases e0 with e | e <;> simp [sigBMP, e]
    have hj : sigJPEG b = false := by
      rcases e0 with e | e <;> simp [sigJPEG, e]
    have hp : sigPNG b = false := by
      rcases e0 with e | e <;> simp [sigPNG, e]
    have hg : sigGIF b = false := by
      rcases e0 with e | e <;> simp [sigGIF, e]
    have hw : sigWEBP b = false := by
      rcases e0 with e | e <;> simp [sigWEBP, e]
    simp [classifyNonSvg, h1, h2, hb, hj, hp, hg, hw, h]

/-- Witness for C4's amended theorem: the PNG-signature payload classifies
as `image/png` under declared `text/plain` and under an empty declared
type. -/
theorem signature_wins_witness :
    classifyNonSvg "text/plain" pngPayload = some "image/png" ∧
    classifyNonSvg "" pngPayload = some "image/png" := by
  have ha := signature_wins_when_declared_untyped "text/plain" pngPayload
    (by decide) (by decide)
  have hb := signature_wins_when_declared_untyped "" pngPayload
    (by decide) (by decide)
  exact ⟨ha.2.2.1 (by decide), hb.2.2.1 (by decide)⟩

/-- Walking the proxy list yields no response exactly when every proxy
attempt failed. -/
theorem tryProxies_fail_iff (ps : List FetchAttempt) :
    (tryProxies ps).1 = none ↔ ps.all FetchAttempt.isErr = true := by
  induction ps with
  | nil => simp [tryProxies]
  | cons p rest ih =>
    cases p with
    | ok r => simp [tryProxies, FetchAttempt.isErr]
    | err e => simp [tryProxies, FetchAttempt.isErr, ih]

/-- A response from the proxy walk comes from the first non-failing proxy,
and the walk stopped right there. -/
theorem tryProxies_first_success (ps : List FetchAttempt) (r : Nat)
    (h : (tryProxies ps).1 = some r) :
    ∃ k, ∃ hk : k < ps.length, ps[k] = .ok r ∧
      (∀ j, (hj : j < ps.length) → j < k → (ps[j]).isErr = true) ∧
      (tryProxies ps).2 = k + 1 := by
  induction ps with
  | nil => simp [tryProxies] at h
  | cons p rest ih =>
    cases p with
    | ok r' =>
      simp only [tryProxies, Option.some.injEq] at h
      subst h
      refine ⟨0, by simp, by simp, ?_, by simp [tryProxies]⟩
      intro j hj hj0
      exact absurd hj0 (Nat.not_lt_zero j)
    | err e =>
      simp only [tryProxies] at h
      obtain ⟨k, hk, hget, hprev, hcnt⟩ := ih h
      refine ⟨k + 1, by simpa using Nat.succ_lt_succ hk,
        by simpa using hget, ?_, ?_⟩
      · intro j hj hjk
        cases j with
        | zero => simp [FetchAttempt.isErr]
        | succ j' =>
          have hj' : j' < rest.length := by
            simpa using Nat.lt_of_succ_lt_succ hj
          simpa using hprev j' hj' (Nat.lt_of_succ_lt_succ hjk)
      · simp only [tryProxies]
        omega

/-- Counterexample to C5 as stated: a direct failure with terminal status
404 — not a network error, not 403, no "CORS" in the message — returns the
per-URL failure with zero relay attempts even though every configured
relay would have succeeded; the relay list is only consulted for
relay-eligible direct errors. -/
theorem non_cors_direct_failure_skips_relays :
    (fetchLegacy (.err ⟨none, some 404, "Request failed with status code 404"⟩)
        [.ok 7, .ok 8, .ok 9]).1 = none ∧
    (fetchLegacy (.err ⟨none, some 404, "Request failed with status code 404"⟩)
        [.ok 7, .ok 8, .ok 9]).2 = 0 ∧
    ([FetchAttempt.ok 7, .ok 8, .ok 9].all FetchAttempt.isErr) = false := by
  decide

/-- C5 (amended): the legacy per-URL fetch returns a failure iff the
direct attempt failed and either the direct error was not relay-eligible
(`ERR_NETWORK`, status 403, or a "CORS" message) or every relay attempt
also failed; and any returned response is either the direct one or the
first relay success, every earlier relay having failed, with the walk
stopping there. -/
theorem relay_chain_behavior (d : FetchAttempt) (ps : List FetchAttempt) :
    ((fetchLegacy d ps).1 = none ↔
      (d.isErr = true ∧
        (relayTriggered d = false ∨ ps.all FetchAttempt.isErr = true))) ∧
    (∀ r, (fetchLegacy d ps).1 = some r →
      d = .ok r ∨
        (relayTriggered d = true ∧ ∃ k, ∃ hk : k < ps.length, ps[k] = .ok r ∧
          (∀ j, (hj : j < ps.length) → j < k → (ps[j]).isErr = true) ∧
          (fetchLegacy d ps).2 = k + 1)) := by
  cases d with
  | ok r0 =>
    constructor
    · simp [fetchLegacy, FetchAttempt.isErr]
    · intro r h
      simp only [fetchLegacy, Option.some.injEq] at h
      subst h
      exact Or.inl rfl
  | err e =>
    by_cases hc : corsEligible e
    · constructor
      · simp [fetchLegacy, hc, FetchAttempt.isErr, relayTriggered,
          tryProxies_fail_iff]
      · intro r h
        simp only [fetchLegacy, hc, if_pos] at h
        refine Or.inr ⟨by simp [relayTriggered, hc], ?_⟩
        have hfst := tryProxies_first_success ps r h
        simpa [fetchLegacy, hc] using hfst
    · constructor
      · simp [fetchLegacy, hc, FetchAttempt.isErr, relayTriggered]
      · intro r h
        simp [fetchLegacy, hc] at h

/-- Witness for C5's amended theorem: a relay-eligible network error whose
two relay attempts both fail yields the per-URL failure. -/
theorem relay_chain_witness :
    (fetchLegacy (.err ⟨some "ERR_NETWORK", none, "Network Error"⟩)
      [.err ⟨none, some 500, "boom"⟩, .err ⟨none, some 502, "bad"⟩]).1
        = none :=
  (relay_chain_behavior _ _).1.mpr ⟨by decide, Or.inr (by decide)⟩

/-- An empty byte payload makes the loop iteration fail: rejected by
classification when the declared type does not make it an image, by the
empty-base64 guard when it does. -/
theorem processCore_empty_bytes (i : Nat) (url ct : String) :
    ∃ m, processCore i url (.ok 200 ct (.bytes [])) = .err m := by
  unfold processCore
  by_cases hsvg : strEnds (lowerStr url) ".svg"
  · exact ⟨"Invalid SVG content", by simp [hsvg]⟩
  · cases hcl : classifyNonSvg ct (RespData.magic (.bytes [])) with
    | none => exact ⟨"Not an image file", by simp [hsvg, hcl]⟩
    | some d =>
      exact ⟨"Failed to encode image data",
        by simp [hsvg, hcl, RespData.byteLen]⟩

/-- An empty text payload likewise fails: an SVG URL trips the
`<svg`-marker check, any other URL ends up classified from an empty byte
view or caught by the empty-base64 guard. -/
theorem processCore_empty_text (i : Nat) (url ct : String) :
    ∃ m, processCore i url (.ok 200 ct (.text "")) = .err m := by
  unfold processCore
  by_cases hsvg : strEnds (lowerStr url) ".svg"
  · exact ⟨"Invalid SVG content",
      by simp [hsvg, strHas, listHasSub, listStartsWith]⟩
  · cases hcl : classifyNonSvg ct (RespData.magic (.text "")) with
    | none => exact ⟨"Not an image file", by simp [hsvg, hcl]⟩
    | some d =>
      exact ⟨"Failed to encode image data",
        by simp [hsvg, hcl, RespData.byteLen]⟩

/-- C8: a zero-byte body behind a 200 status always yields a failed
per-URL outcome — for every declared content type, on both the binary and
the text path — and a failed result contributes nothing to the successful
count that the quota commit charges. -/
theorem empty_payload_always_fails :
    (∀ i url ct, (processUrl i url (.ok 200 ct (.bytes []))).success = false) ∧
    (∀ i url ct, (processUrl i url (.ok 200 ct (.text ""))).success = false) ∧
    (∀ r rs, r.success = false → countSucc (r :: rs) = countSucc rs) := by
  refine ⟨?_, ?_, ?_⟩
  · intro i url ct
    obtain ⟨m, hm⟩ := processCore_empty_bytes i url ct
    simp [processUrl, hm]
  · intro i url ct
    obtain ⟨m, hm⟩ := processCore_empty_text i url ct
    simp [processUrl, hm]
  · intro r rs h
    simp [countSucc, List.filter, h]

/-- Witness for C8: a zero-byte PNG-typed body fails and counts for
nothing. -/
theorem empty_payload_witness :
    (processUrl 0 "http://h/a.png"
      (.ok 200 "image/png" (.bytes []))).success = false ∧
    countSucc [processUrl 0 "http://h/a.png"
      (.ok 200 "image/png" (.bytes []))] = 0 :=
  ⟨empty_payload_always_fails.1 0 "http://h/a.png" "image/png",
   empty_payload_always_fails.2.2 _ []
     (empty_payload_always_fails.1 0 "http://h/a.png" "image/png")⟩

/-- C9: rasterization failure never escalates.  The zip-assembly loop is
total — one archive entry per download — and an SVG item's entry is the
rasterized PNG under the transformed name on success, and the original SVG
bytes under the original sanitized name when `convertSvgToPng` rejected
(markup the renderer cannot load, or a null blob from the encoder — the
two rejection paths of part_000 lines 30–44, both caught at lines
122–127). -/
theorem svg_rasterization_never_crashes (items : List ZipItem)
    (raster : Nat → RasterResult) (idx : Nat) (item : ZipItem)
    (b : List Nat) :
    (processImageDownloads items raster).length = items.length ∧
    processSvgEntry idx item (.png b) =
      ⟨sanitizeName (pngFilename idx item.filename), .raster b⟩ ∧
    processSvgEntry idx item .failed =
      ⟨sanitizeName item.filename, .original item.blobBytes⟩ :=
  ⟨by simp [processImageDownloads], rfl, rfl⟩

end BulkyLoad
